import Mathlib

/-!
Verification of the book-identification module (`external_services.py`).

The module has three functions:
* `limpiar_isbn` — normalizes a raw ISBN string (upper-case, keep only
  digits and `X`, accept only lengths 10 and 13);
* `buscar_en_google_books` — a two-tier Google Books lookup (ISBN tier,
  then title/author text tier), parsing the first result item via an
  inner `_parse_volume` helper;
* `identificar_libro_por_imagen` — vision extraction followed by the
  catalog lookup and a field-by-field merge.

External effects are embedded as explicit oracles:
* the catalog HTTP transport is a function from the query string to a
  `Transport` value — either a raised exception (`requests.get` timeout,
  or a body that fails to parse) or a response with a status code and the
  parsed `items` list;
* the vision collaborator call is a `VisionResp` value — either a raised
  exception (transport failure or collaborator error) or a message
  content, itself either absent (Python `None`), malformed JSON, or a
  parsed JSON object (`Payload`, every key optional).

Python truthiness on the values that occur here is embedded directly:
a string is falsy exactly when empty, an int exactly when zero, and an
optional exactly when `none`; the hint arguments of
`buscar_en_google_books` are plain strings with `""` playing the role of
both Python `None` and `""` (the function only ever tests their
truthiness, and its one other use, `limpiar_isbn(isbn or "")`, coincides
with `limpiar_isbn isbn` under this reading).
-/

namespace SistemaBiblio

/-! ### Identifier normalizer: `limpiar_isbn` -/

/-- The character class kept by `re.sub(r"[^0-9X]", "", isbn)`:
ASCII digits (codes 48–57) and the letter `X`. -/
def isIsbnChar (c : Char) : Bool :=
  (48 ≤ c.toNat && c.toNat ≤ 57) || c = 'X'

/-- ASCII upper-casing of one character, as Python `str.upper` acts on the
ASCII range (codes 97–122 map down by 32). -/
def toUpperChar (c : Char) : Char :=
  if 97 ≤ c.toNat ∧ c.toNat ≤ 122 then Char.ofNat (c.toNat - 32) else c

/-- `isbn.upper()`. -/
def strUpper (s : String) : String :=
  String.mk (s.toList.map toUpperChar)

/-- `re.sub(r"[^0-9X]", "", s)`. -/
def stripNonIsbn (s : String) : String :=
  String.mk (s.toList.filter isIsbnChar)

/-- `limpiar_isbn` from `external_services.py` (lines 13–21): empty input
returns `""`; otherwise upper-case, strip everything outside `[0-9X]`,
and keep the result only if its length is 10 or 13. -/
def limpiar_isbn (isbn : String) : String :=
  if isbn = "" then ""
  else
    let cleaned := stripNonIsbn (strUpper isbn)
    if cleaned.length = 10 ∨ cleaned.length = 13 then cleaned else ""

/-! ### Catalog data model and `_parse_volume` -/

/-- One entry of `volumeInfo.industryIdentifiers`: `ident.get("type")`
(absent key gives Python `None`, hence `Option`) and
`ident.get("identifier", "")`. -/
structure IndustryIdentifier where
  type_ : Option String
  identifier : String
deriving Repr, DecidableEq

/-- The `volumeInfo` object of one catalog item; every field carries the
default that the corresponding `info.get(...)` call supplies when the key
is missing, so `vol.get("volumeInfo", {})` is the all-default record. -/
structure VolumeInfo where
  industryIdentifiers : List IndustryIdentifier := []
  publishedDate : String := ""
  authors : List String := []
  title : String := ""
  publisher : String := ""
deriving Repr, DecidableEq

/-- The record shape `{isbn, titulo, autor, anio, editorial}` used for the
parsed candidate, the extraction, and the final merged result. -/
structure Libro where
  isbn : String
  titulo : String
  autor : String
  anio : Int
  editorial : String
deriving Repr, DecidableEq

/-- The identifier scan of `_parse_volume` (lines 36–43): walk the
entries with accumulator `isbn_res` (started at the fallback); an entry
whose type is `ISBN_13` or `ISBN_10` with a non-empty value overwrites
`isbn_res`, and the loop breaks right after an `ISBN_13` one. -/
def scanIdents : List IndustryIdentifier → String → String
  | [], acc => acc
  | e :: rest, acc =>
    if (e.type_ = some "ISBN_13" ∨ e.type_ = some "ISBN_10") ∧ e.identifier ≠ "" then
      if e.type_ = some "ISBN_13" then e.identifier
      else scanIdents rest e.identifier
    else scanIdents rest acc

/-- Decimal value of a digit string, the meaning of Python `int` on a
string of ASCII digits. -/
def intOfDigits (l : List Char) : Int :=
  Int.ofNat (l.foldl (fun a c => a * 10 + (c.toNat - 48)) 0)

/-- The year computation of `_parse_volume` (lines 46–49):
`int(pub_date[:4])` when the date has at least 4 characters and its first
4 are all digits, else `0`. -/
def yearFromDate (pd : String) : Int :=
  if 4 ≤ pd.length ∧ (pd.toList.take 4).all Char.isDigit then
    intOfDigits (pd.toList.take 4)
  else 0

/-- `_parse_volume(vol, isbn_fallback)` (lines 32–59). -/
def parseVolume (info : VolumeInfo) (isbn_fallback : String) : Libro :=
  { isbn := scanIdents info.industryIdentifiers isbn_fallback
    titulo := info.title
    autor := String.intercalate ", " info.authors
    anio := yearFromDate info.publishedDate
    editorial := info.publisher }

/-! ### Catalog resolver: `buscar_en_google_books` -/

/-- Outcome of one `requests.get` against the catalog, keyed by the query
string: a raised exception (timeout, or a later `r.json()` failure), or a
response with its status code and parsed `items` list. -/
inductive Transport where
  | exn (msg : String)
  | resp (status : Nat) (items : List VolumeInfo)
deriving Repr, DecidableEq

/-- The `q_parts` list (lines 75–79): `intitle:` for a truthy title and
`inauthor:` for a truthy author. -/
def qParts (titulo autor : String) : List String :=
  (if titulo ≠ "" then ["intitle:" ++ titulo] else []) ++
  (if autor ≠ "" then ["inauthor:" ++ autor] else [])

/-- Tier 2 of `buscar_en_google_books` (lines 74–97): the title/author
query.  Returns `Except.error` when the transport raises (the exception
propagates to the caller), `.ok none` for "no candidate". -/
def buscarTier2 (catalog : String → Transport) (isbn titulo autor : String) :
    Except String (Option Libro) :=
  match qParts titulo autor with
  | [] => .ok none
  | q :: qs =>
    match catalog (String.intercalate "+" (q :: qs)) with
    | .exn msg => .error msg
    | .resp status items =>
      if status ≠ 200 then .ok none
      else
        match items with
        | [] => .ok none
        | vol :: _ =>
          let gb := parseVolume vol (limpiar_isbn isbn)
          if gb.titulo ≠ "" ∨ gb.autor ≠ "" then .ok (some gb) else .ok none

/-- `buscar_en_google_books(isbn, titulo, autor)` (lines 24–97).  Tier 1
(the `isbn:` query) runs only when the isbn hint is truthy and normalizes
to a non-empty string; any tier-1 miss (non-200 status, no items, or a
candidate with empty title and author) falls through to tier 2. -/
def buscar_en_google_books (catalog : String → Transport)
    (isbn titulo autor : String) : Except String (Option Libro) :=
  if isbn ≠ "" then
    let isbn_clean := limpiar_isbn isbn
    if isbn_clean ≠ "" then
      match catalog ("isbn:" ++ isbn_clean) with
      | .exn msg => .error msg
      | .resp status items =>
        if status = 200 then
          match items with
          | vol :: _ =>
            let gb := parseVolume vol isbn_clean
            if gb.titulo ≠ "" ∨ gb.autor ≠ "" then .ok (some gb)
            else buscarTier2 catalog isbn titulo autor
          | [] => buscarTier2 catalog isbn titulo autor
        else buscarTier2 catalog isbn titulo autor
    else buscarTier2 catalog isbn titulo autor
  else buscarTier2 catalog isbn titulo autor

/-! ### Vision extraction and the reconciler: `identificar_libro_por_imagen` -/

/-- The JSON object the vision collaborator is asked to produce; each key
may be missing (`ia.get` tolerates absence). -/
structure Payload where
  isbn : Option String := none
  titulo : Option String := none
  autor : Option String := none
  anio : Option Int := none
  editorial : Option String := none
deriving Repr, DecidableEq

/-- The message content of the vision response once `json.loads` is
applied: a string that fails to parse (the raised `JSONDecodeError`
message) or a parsed object. -/
inductive Content where
  | malformed (msg : String)
  | obj (p : Payload)
deriving Repr, DecidableEq

/-- Outcome of the `client.chat.completions.create` call: a raised
exception, or a response whose message content may be `None`. -/
inductive VisionResp where
  | exn (msg : String)
  | ok (content : Option Content)
deriving Repr, DecidableEq

/-- Python `str.strip()`: drop whitespace from both ends. -/
def pyStrip (s : String) : String :=
  String.mk (((s.toList.dropWhile Char.isWhitespace).reverse.dropWhile
    Char.isWhitespace).reverse)

/-- Python `a or b` on strings: `a` unless it is empty. -/
def pyOrS (a b : String) : String := if a = "" then b else a

/-- Python `a or b` on ints: `a` unless it is zero. -/
def pyOrI (a b : Int) : Int := if a = 0 then b else a

/-- `identificar_libro_por_imagen` (lines 100–181).  `keyConfigured`
embeds `client is not None`; everything inside the `try` block that
raises — the vision call, `json.loads`, and any exception escaping
`buscar_en_google_books` — lands in the `except` clause, which formats
the message with the `"Error al consultar la IA: "` prefix. -/
def identificar_libro_por_imagen (keyConfigured : Bool) (vision : VisionResp)
    (catalog : String → Transport) : Option Libro × Option String :=
  if keyConfigured = false then
    (none, some "OPENAI_API_KEY no configurada en el entorno.")
  else
    match vision with
    | .exn e => (none, some ("Error al consultar la IA: " ++ e))
    | .ok content =>
      match content.getD (.obj {}) with
      | .malformed e => (none, some ("Error al consultar la IA: " ++ e))
      | .obj ia =>
        let isbn_ia := limpiar_isbn (ia.isbn.getD "")
        let titulo_ia := pyStrip (ia.titulo.getD "")
        let autor_ia := pyStrip (ia.autor.getD "")
        let anio_ia := ia.anio.getD 0
        let editorial_ia := pyStrip (ia.editorial.getD "")
        match buscar_en_google_books catalog isbn_ia titulo_ia autor_ia with
        | .error e => (none, some ("Error al consultar la IA: " ++ e))
        | .ok none =>
          (some { isbn := isbn_ia, titulo := titulo_ia, autor := autor_ia,
                  anio := pyOrI anio_ia 0, editorial := editorial_ia }, none)
        | .ok (some gb) =>
          (some { isbn := pyOrS gb.isbn isbn_ia,
                  titulo := pyOrS gb.titulo titulo_ia,
                  autor := pyOrS gb.autor autor_ia,
                  anio := pyOrI gb.anio (pyOrI anio_ia 0),
                  editorial := pyOrS gb.editorial editorial_ia }, none)

end SistemaBiblio

namespace SistemaBiblio

/-! ### Spec-side definitions (used to state refinement-style claims) -/

/-- The normalizer contract as the spec words it: empty input gives `""`;
otherwise upper-case, keep only characters that are a digit or `X`, and
accept the cleaned string exactly when its length is 10 or 13. -/
def normalizeSpec (s : String) : String :=
  if s = "" then ""
  else
    let cleaned := String.mk ((strUpper s).toList.filter (fun c => c.isDigit || c = 'X'))
    if cleaned.length = 10 ∨ cleaned.length = 13 then cleaned else ""

/-- The year rule as the spec words it: the integer value of the date
string's first 4 characters when there are at least 4 and they are all
digits, else 0. -/
def yearSpec (s : String) : Int :=
  if (s.toList.take 4).length = 4 ∧ (s.toList.take 4).all Char.isDigit then
    intOfDigits (s.toList.take 4)
  else 0

/-- An entry recognized as 13-kind with a non-empty value. -/
def isbn13Entry (e : IndustryIdentifier) : Bool :=
  e.type_ = some "ISBN_13" && e.identifier ≠ ""

/-- An entry recognized as 10-kind with a non-empty value. -/
def isbn10Entry (e : IndustryIdentifier) : Bool :=
  e.type_ = some "ISBN_10" && e.identifier ≠ ""

/-- Declarative description of the identifier scan: the value of the
first non-empty 13-kind entry if one exists, else the value of the last
non-empty 10-kind entry if one exists, else the fallback. -/
def scanSpec (l : List IndustryIdentifier) (fb : String) : String :=
  match l.find? isbn13Entry with
  | some e => e.identifier
  | none =>
    match (l.filter isbn10Entry).getLast? with
    | some e => e.identifier
    | none => fb

/-- The spec's identifier invariant: empty, or exactly 10 or 13
characters drawn from the digits and `X`. -/
def isbnInvB (s : String) : Bool :=
  s = "" || ((s.length = 10 || s.length = 13) &&
    s.toList.all (fun c => c.isDigit || c = 'X'))

/-- Whether a transport outcome is a raised exception. -/
def Transport.isExn : Transport → Bool
  | .exn _ => true
  | .resp _ _ => false

/-- A transport outcome whose items carry only invariant-satisfying
identifier values (an exception carries none). -/
def cleanTransport : Transport → Bool
  | .exn _ => true
  | .resp _ items =>
    items.all fun vol => vol.industryIdentifiers.all fun e => isbnInvB e.identifier

/-! ### Concrete fixtures (the spec's Dune example) -/

/-- The catalog item of the spec's Dune example. -/
def duneVol : VolumeInfo :=
  { industryIdentifiers := [⟨some "ISBN_13", "9780441013593"⟩]
    publishedDate := "1965-06-01"
    authors := ["Frank Herbert"]
    title := "Dune"
    publisher := "Ace" }

/-- The Dune candidate record. -/
def duneLibro : Libro := ⟨"9780441013593", "Dune", "Frank Herbert", 1965, "Ace"⟩

/-- A catalog oracle answering only the `intitle:Dune` text query. -/
def duneCat : String → Transport := fun q =>
  if q = "intitle:Dune" then .resp 200 [duneVol] else .resp 404 []

/-- A catalog oracle that always answers with the Dune item. -/
def duneCatConst : String → Transport := fun _ => .resp 200 [duneVol]

end SistemaBiblio
namespace SistemaBiblio

/-! ### Helper lemmas about the normalizer -/

theorem isIsbnChar_eq_spec : isIsbnChar = fun c => c.isDigit || c = 'X' := rfl

theorem toUpperChar_of_isIsbnChar {c : Char} (h : isIsbnChar c = true) :
    toUpperChar c = c := by
  simp only [isIsbnChar, Bool.or_eq_true, Bool.and_eq_true, decide_eq_true_eq] at h
  unfold toUpperChar
  rcases h with ⟨h1, h2⟩ | h3
  · rw [if_neg (by omega)]
  · subst h3; rfl

theorem strUpper_fix {l : List Char} (h : ∀ c ∈ l, isIsbnChar c = true) :
    strUpper (String.mk l) = String.mk l := by
  show String.mk (l.map toUpperChar) = String.mk l
  rw [List.map_congr_left (fun a ha => toUpperChar_of_isIsbnChar (h a ha))]
  simp

theorem stripNonIsbn_fix {l : List Char} (h : ∀ c ∈ l, isIsbnChar c = true) :
    stripNonIsbn (String.mk l) = String.mk l := by
  show String.mk (l.filter isIsbnChar) = String.mk l
  rw [List.filter_eq_self.mpr h]

theorem limpiar_isbn_eq (s : String) (h : ¬ s = "") :
    limpiar_isbn s =
      if (stripNonIsbn (strUpper s)).length = 10 ∨ (stripNonIsbn (strUpper s)).length = 13
      then stripNonIsbn (strUpper s) else "" := by
  unfold limpiar_isbn
  rw [if_neg h]

theorem limpiar_isbn_shape (s : String) :
    limpiar_isbn s = "" ∨
    ∃ l : List Char, limpiar_isbn s = String.mk l ∧ (∀ c ∈ l, isIsbnChar c = true) ∧
      (l.length = 10 ∨ l.length = 13) := by
  by_cases h0 : s = ""
  · left; rw [h0]; rfl
  · rw [limpiar_isbn_eq s h0]
    by_cases hlen : (stripNonIsbn (strUpper s)).length = 10 ∨
        (stripNonIsbn (strUpper s)).length = 13
    · right
      refine ⟨(strUpper s).toList.filter isIsbnChar, ?_, ?_, ?_⟩
      · rw [if_pos hlen]
        rfl
      · intro c hc
        exact (List.mem_filter.mp hc).2
      · exact hlen
    · left; rw [if_neg hlen]

/-- C9: identifier normalization is idempotent:
`limpiar_isbn (limpiar_isbn x) = limpiar_isbn x` for every string `x`. -/
theorem c9_limpiar_isbn_idempotent (s : String) :
    limpiar_isbn (limpiar_isbn s) = limpiar_isbn s := by
  rcases limpiar_isbn_shape s with h | ⟨l, hEq, hMem, hLen⟩
  · rw [h]; rfl
  · rw [hEq]
    have hne : ¬ String.mk l = "" := by
      intro hcontra
      have hnil : l = [] := congrArg String.data hcontra
      rw [hnil] at hLen
      simp at hLen
    have hLen' : (String.mk l).length = 10 ∨ (String.mk l).length = 13 := hLen
    rw [limpiar_isbn_eq _ hne, strUpper_fix hMem, stripNonIsbn_fix hMem, if_pos hLen']

/-- C6: the normalizer agrees everywhere with the spec's contract
(empty input gives `""`; otherwise upper-case, keep only digit/`X`
characters, accept exactly lengths 10 and 13, else `""`); it is a total
function on strings, hence pure and never throwing. -/
theorem c6_limpiar_isbn_contract : ∀ s : String, limpiar_isbn s = normalizeSpec s :=
  fun _ => rfl

/-- C5: when the vision stage fails — the call raises or the collaborator
errors (`VisionResp.exn`), or its payload does not parse
(`Content.malformed`) — the routine returns a null record and a non-null
error, and the result is the same for every catalog oracle, i.e. the
catalog resolver is never consulted. -/
theorem c5_extraction_failure_aborts :
    (∀ (msg : String) (catalog : String → Transport),
        identificar_libro_por_imagen true (.exn msg) catalog
          = (none, some ("Error al consultar la IA: " ++ msg))) ∧
    (∀ (msg : String) (catalog : String → Transport),
        identificar_libro_por_imagen true (.ok (some (.malformed msg))) catalog
          = (none, some ("Error al consultar la IA: " ++ msg))) :=
  ⟨fun _ _ => rfl, fun _ _ => rfl⟩

/-- C10: an absent message content (`None`) and the empty JSON object
both give a successful empty extraction: the resolver is called with no
usable hints and yields no candidate (for every catalog oracle), and the
routine returns the all-empty record with a null error. -/
theorem c10_empty_payload_is_success :
    (∀ catalog : String → Transport,
        buscar_en_google_books catalog "" "" "" = .ok none) ∧
    (∀ catalog : String → Transport,
        identificar_libro_por_imagen true (.ok none) catalog
          = (some ⟨"", "", "", 0, ""⟩, none)) ∧
    (∀ catalog : String → Transport,
        identificar_libro_por_imagen true (.ok (some (.obj {}))) catalog
          = (some ⟨"", "", "", 0, ""⟩, none)) :=
  ⟨fun _ => rfl, fun _ => rfl, fun _ => rfl⟩

/-- C8: with an identifier hint that normalizes to empty and empty title
and author hints, the resolver returns `none` (and no exception), for
every catalog oracle — no lookup is issued. -/
theorem c8_resolver_null_on_no_hints (catalog : String → Transport) (isbn : String)
    (h : limpiar_isbn isbn = "") :
    buscar_en_google_books catalog isbn "" "" = .ok none := by
  by_cases h0 : isbn = ""
  · subst h0; rfl
  · unfold buscar_en_google_books
    rw [if_pos h0]
    simp only [h]
    simp [buscarTier2, qParts]

/-- Witness for C8 at the concrete hint `"abc"`. -/
theorem c8_resolver_null_on_no_hints_witness :
    limpiar_isbn "abc" = "" ∧
    buscar_en_google_books (fun _ => .exn "boom") "abc" "" "" = .ok none :=
  ⟨rfl, c8_resolver_null_on_no_hints (fun _ => .exn "boom") "abc" rfl⟩

end SistemaBiblio
namespace SistemaBiblio

/-- C7: the candidate's year equals the spec's rule — the integer value
of the published-date string's first 4 characters when there are at least
4 and they are all digits, else 0 — and in particular `"1965-06-01"`
gives 1965 while `"unknown"` and `""` give 0. -/
theorem c7_year_parsing :
    (∀ (info : VolumeInfo) (fb : String),
        (parseVolume info fb).anio = yearSpec info.publishedDate) ∧
    (parseVolume { publishedDate := "1965-06-01" } "").anio = 1965 ∧
    (parseVolume { publishedDate := "unknown" } "").anio = 0 ∧
    (parseVolume { publishedDate := "" } "").anio = 0 := by
  refine ⟨fun info fb => ?_, by decide, by decide, by decide⟩
  show yearFromDate info.publishedDate = yearSpec info.publishedDate
  generalize info.publishedDate = pd
  unfold yearFromDate yearSpec
  have hsl : pd.length = pd.toList.length := rfl
  rw [hsl]
  by_cases h4 : 4 ≤ pd.toList.length
  · have ht : (pd.toList.take 4).length = 4 := by
      rw [List.length_take]
      omega
    simp [h4, ht]
  · have ht : ¬ (pd.toList.take 4).length = 4 := by
      rw [List.length_take]
      omega
    simp [h4, ht]

/-! ### The identifier scan of `_parse_volume` (C4) -/

theorem scanIdents_characterization (l : List IndustryIdentifier) (fb : String) :
    scanIdents l fb = scanSpec l fb := by
  induction l generalizing fb with
  | nil => rfl
  | cons e rest ih =>
    by_cases h13 : e.type_ = some "ISBN_13" ∧ e.identifier ≠ ""
    · have hb13 : isbn13Entry e = true := by
        simp [isbn13Entry, h13.1, h13.2]
      rw [scanIdents, if_pos ⟨Or.inl h13.1, h13.2⟩, if_pos h13.1]
      rw [scanSpec, List.find?_cons_of_pos _ hb13]
    · by_cases h10 : e.type_ = some "ISBN_10" ∧ e.identifier ≠ ""
      · have hne13 : ¬ e.type_ = some "ISBN_13" := by
          intro hc
          exact h13 ⟨hc, h10.2⟩
        have hb13 : ¬ isbn13Entry e = true := by
          intro hb
          simp only [isbn13Entry, Bool.and_eq_true, decide_eq_true_eq] at hb
          exact hne13 hb.1
        have hb10 : isbn10Entry e = true := by
          simp [isbn10Entry, h10.1, h10.2]
        rw [scanIdents, if_pos ⟨Or.inr h10.1, h10.2⟩, if_neg hne13, ih]
        rw [scanSpec, scanSpec, List.find?_cons_of_neg _ hb13, List.filter_cons_of_pos hb10,
          List.getLast?_cons]
        cases hfind : rest.find? isbn13Entry with
        | some f => rfl
        | none =>
          cases hlast : (rest.filter isbn10Entry).getLast? with
          | some f => simp [hlast]
          | none => simp [hlast]
      · have hcond : ¬ ((e.type_ = some "ISBN_13" ∨ e.type_ = some "ISBN_10") ∧ e.identifier ≠ "") := by
          rintro ⟨ht | ht, hv⟩
          · exact h13 ⟨ht, hv⟩
          · exact h10 ⟨ht, hv⟩
        have hb13 : ¬ isbn13Entry e = true := by
          intro hb
          simp only [isbn13Entry, Bool.and_eq_true, decide_eq_true_eq] at hb
          exact hcond ⟨Or.inl hb.1, hb.2⟩
        have hb10 : ¬ isbn10Entry e = true := by
          intro hb
          simp only [isbn10Entry, Bool.and_eq_true, decide_eq_true_eq] at hb
          exact hcond ⟨Or.inr hb.1, hb.2⟩
        rw [scanIdents, if_neg hcond, ih]
        rw [scanSpec, scanSpec, List.find?_cons_of_neg _ hb13, List.filter_cons_of_neg hb10]

end SistemaBiblio
namespace SistemaBiblio

theorem pyOrS_eq (a b : String) : pyOrS a b = if a ≠ "" then a else b := by
  unfold pyOrS
  by_cases h : a = "" <;> simp [h]

theorem pyOrI_eq (a b : Int) : pyOrI a b = if a ≠ 0 then a else b := by
  unfold pyOrI
  by_cases h : a = 0 <;> simp [h]

/-- C4 (amended): the identifier scan yields the value of the first
non-empty 13-kind entry when one exists (so a 13-kind value beats a
10-kind one regardless of list order, and the scan stops there);
otherwise the value of the **last** — not the first — non-empty 10-kind
entry; otherwise the supplied fallback. -/
theorem c4_scan_prefers_13_keeps_last_10 (info : VolumeInfo) (fb : String) :
    (parseVolume info fb).isbn = scanSpec info.industryIdentifiers fb :=
  scanIdents_characterization info.industryIdentifiers fb

/-- C4 counterexample: with two non-empty 10-kind entries and no 13-kind
entry, the scan returns the last-seen value `"2222222222"`, not the
first-seen `"1111111111"` the claim would require. -/
theorem c4_counterexample :
    (parseVolume { industryIdentifiers :=
        [⟨some "ISBN_10", "1111111111"⟩, ⟨some "ISBN_10", "2222222222"⟩] } "").isbn
      = "2222222222" ∧
    ¬ (parseVolume { industryIdentifiers :=
        [⟨some "ISBN_10", "1111111111"⟩, ⟨some "ISBN_10", "2222222222"⟩] } "").isbn
      = "1111111111" := by
  exact ⟨rfl, by decide⟩

/-- C1: when extraction succeeded (a parsed payload `p`) and the resolver
returned a candidate `gb`, the final record takes each of
isbn/titulo/autor/editorial from the candidate when that value is
non-empty and from the extraction otherwise, and the year from the
candidate when non-zero, else from the extraction when non-zero, else 0. -/
theorem c1_merge_policy (p : Payload) (catalog : String → Transport) (gb : Libro)
    (h : buscar_en_google_books catalog (limpiar_isbn (p.isbn.getD ""))
        (pyStrip (p.titulo.getD "")) (pyStrip (p.autor.getD "")) = .ok (some gb)) :
    identificar_libro_por_imagen true (.ok (some (.obj p))) catalog =
      (some { isbn := if gb.isbn ≠ "" then gb.isbn else limpiar_isbn (p.isbn.getD "")
              titulo := if gb.titulo ≠ "" then gb.titulo else pyStrip (p.titulo.getD "")
              autor := if gb.autor ≠ "" then gb.autor else pyStrip (p.autor.getD "")
              anio := if gb.anio ≠ 0 then gb.anio
                      else if p.anio.getD 0 ≠ 0 then p.anio.getD 0 else 0
              editorial := if gb.editorial ≠ "" then gb.editorial
                           else pyStrip (p.editorial.getD "") }, none) := by
  simp only [identificar_libro_por_imagen, Option.getD_some, Bool.true_eq_false, ite_false]
  rw [h]
  simp only [pyOrS_eq, pyOrI_eq]

/-- Witness for C1: the spec's Dune example — empty extraction apart from
the title, full catalog candidate — merges to the candidate exactly. -/
theorem c1_merge_policy_witness :
    identificar_libro_por_imagen true (.ok (some (.obj { titulo := some "Dune" }))) duneCat
      = (some duneLibro, none) := by
  rw [c1_merge_policy { titulo := some "Dune" } duneCat duneLibro rfl]
  rfl

end SistemaBiblio
namespace SistemaBiblio

theorem buscarTier2_total (catalog : String → Transport) (isbn titulo autor : String)
    (hcat : ∀ q, (catalog q).isExn = false) :
    ∃ o, buscarTier2 catalog isbn titulo autor = .ok o := by
  unfold buscarTier2
  cases hq : qParts titulo autor with
  | nil => exact ⟨none, rfl⟩
  | cons q qs =>
    dsimp only []
    cases hc : catalog (String.intercalate "+" (q :: qs)) with
    | exn msg =>
      have hfalse := hcat (String.intercalate "+" (q :: qs))
      rw [hc] at hfalse
      simp [Transport.isExn] at hfalse
    | resp status items =>
      dsimp only []
      by_cases hs : status ≠ 200
      · rw [if_pos hs]
        exact ⟨none, rfl⟩
      · rw [if_neg hs]
        cases items with
        | nil => exact ⟨none, rfl⟩
        | cons vol rest =>
          by_cases hv : (parseVolume vol (limpiar_isbn isbn)).titulo ≠ "" ∨
              (parseVolume vol (limpiar_isbn isbn)).autor ≠ ""
          · exact ⟨some (parseVolume vol (limpiar_isbn isbn)),
              by show (if _ ∨ _ then _ else _) = _; rw [if_pos hv]⟩
          · exact ⟨none, by show (if _ ∨ _ then _ else _) = _; rw [if_neg hv]⟩

theorem buscar_total (catalog : String → Transport) (isbn titulo autor : String)
    (hcat : ∀ q, (catalog q).isExn = false) :
    ∃ o, buscar_en_google_books catalog isbn titulo autor = .ok o := by
  unfold buscar_en_google_books
  by_cases h0 : isbn ≠ ""
  · rw [if_pos h0]
    by_cases h1 : limpiar_isbn isbn ≠ ""
    · show ∃ o, (if limpiar_isbn isbn ≠ "" then _ else _) = _
      rw [if_pos h1]
      cases hc : catalog ("isbn:" ++ limpiar_isbn isbn) with
      | exn msg =>
        have hfalse := hcat ("isbn:" ++ limpiar_isbn isbn)
        rw [hc] at hfalse
        simp [Transport.isExn] at hfalse
      | resp status items =>
        dsimp only []
        by_cases hs : status = 200
        · rw [if_pos hs]
          cases items with
          | nil => exact buscarTier2_total catalog isbn titulo autor hcat
          | cons vol rest =>
            by_cases hv : (parseVolume vol (limpiar_isbn isbn)).titulo ≠ "" ∨
                (parseVolume vol (limpiar_isbn isbn)).autor ≠ ""
            · exact ⟨some (parseVolume vol (limpiar_isbn isbn)),
                by show (if _ ∨ _ then _ else _) = _; rw [if_pos hv]⟩
            · show ∃ o, (if _ ∨ _ then _ else _) = _
              rw [if_neg hv]
              exact buscarTier2_total catalog isbn titulo autor hcat
        · rw [if_neg hs]
          exact buscarTier2_total catalog isbn titulo autor hcat
    · show ∃ o, (if limpiar_isbn isbn ≠ "" then _ else _) = _
      rw [if_neg h1]
      exact buscarTier2_total catalog isbn titulo autor hcat
  · rw [if_neg h0]
    exact buscarTier2_total catalog isbn titulo autor hcat

/-- C2 counterexample: vision extraction has succeeded (a parsed payload
with title `"Dune"`), yet a catalog transport that raises (a timeout)
makes the routine return a null record and a non-null error — the
exception escapes `buscar_en_google_books` into the surrounding handler. -/
theorem c2_counterexample :
    identificar_libro_por_imagen true (.ok (some (.obj { titulo := some "Dune" })))
      (fun _ => .exn "timed out")
      = (none, some "Error al consultar la IA: timed out") := rfl

/-- C2 (amended): once extraction has succeeded, catalog-lookup failures
that produce a response — any bad status, or an empty result list — are
never surfaced as an error: whenever the transport does not raise, the
routine returns a non-null record with a null error.  (A raised transport
exception, e.g. a timeout, is surfaced as an error; see the
counterexample.) -/
theorem c2_no_error_when_transport_responds (p : Payload)
    (catalog : String → Transport) (hcat : ∀ q, (catalog q).isExn = false) :
    ∃ rec, identificar_libro_por_imagen true (.ok (some (.obj p))) catalog
      = (some rec, none) := by
  obtain ⟨o, ho⟩ := buscar_total catalog (limpiar_isbn (p.isbn.getD ""))
    (pyStrip (p.titulo.getD "")) (pyStrip (p.autor.getD "")) hcat
  simp only [identificar_libro_por_imagen, Option.getD_some, Bool.true_eq_false, ite_false]
  rw [ho]
  cases o with
  | none => exact ⟨_, rfl⟩
  | some gb => exact ⟨_, rfl⟩

/-- Witness for C2 (amended) at a concrete always-failing-status catalog. -/
theorem c2_no_error_when_transport_responds_witness :
    ∃ rec, identificar_libro_por_imagen true (.ok (some (.obj {})))
      (fun _ => .resp 500 []) = (some rec, none) :=
  c2_no_error_when_transport_responds {} (fun _ => .resp 500 []) (fun _ => rfl)

end SistemaBiblio
namespace SistemaBiblio

theorem isbnInvB_limpiar (s : String) : isbnInvB (limpiar_isbn s) = true := by
  rcases limpiar_isbn_shape s with h | ⟨l, hEq, hMem, hLen⟩
  · rw [h]; rfl
  · rw [hEq]
    simp only [isbnInvB, Bool.or_eq_true, Bool.and_eq_true, decide_eq_true_eq,
      List.all_eq_true]
    right
    refine ⟨hLen, ?_⟩
    intro c hc
    have hor := hMem c hc
    simp only [isIsbnChar, Bool.or_eq_true, decide_eq_true_eq] at hor
    rcases hor with hd | hx
    · exact Or.inl hd
    · exact Or.inr hx

theorem scanIdents_inv (l : List IndustryIdentifier) (acc : String)
    (hl : ∀ e ∈ l, isbnInvB e.identifier = true) (hacc : isbnInvB acc = true) :
    isbnInvB (scanIdents l acc) = true := by
  induction l generalizing acc with
  | nil => exact hacc
  | cons e rest ih =>
    rw [scanIdents]
    split
    · split
      · exact hl e (List.mem_cons_self e rest)
      · exact ih _ (fun x hx => hl x (List.mem_cons_of_mem _ hx))
          (hl e (List.mem_cons_self e rest))
    · exact ih _ (fun x hx => hl x (List.mem_cons_of_mem _ hx)) hacc

theorem parseVolume_inv (vol : VolumeInfo) (fb : String)
    (hv : ∀ e ∈ vol.industryIdentifiers, isbnInvB e.identifier = true)
    (hfb : isbnInvB fb = true) :
    isbnInvB (parseVolume vol fb).isbn = true :=
  scanIdents_inv vol.industryIdentifiers fb hv hfb

theorem buscarTier2_inv (catalog : String → Transport) (isbn titulo autor : String)
    (hcat : ∀ q, cleanTransport (catalog q) = true) (gb : Libro)
    (h : buscarTier2 catalog isbn titulo autor = .ok (some gb)) :
    isbnInvB gb.isbn = true := by
  unfold buscarTier2 at h
  cases hq : qParts titulo autor with
  | nil =>
    rw [hq] at h
    simp at h
  | cons q qs =>
    rw [hq] at h
    dsimp only [] at h
    cases hc : catalog (String.intercalate "+" (q :: qs)) with
    | exn msg =>
      rw [hc] at h
      simp at h
    | resp status items =>
      rw [hc] at h
      dsimp only [] at h
      by_cases hs : status ≠ 200
      · rw [if_pos hs] at h
        simp at h
      · rw [if_neg hs] at h
        cases items with
        | nil => simp at h
        | cons vol rest =>
          dsimp only [] at h
          split at h
          · simp only [Except.ok.injEq, Option.some.injEq] at h
            subst h
            have hclean := hcat (String.intercalate "+" (q :: qs))
            rw [hc] at hclean
            simp only [cleanTransport, List.all_eq_true] at hclean
            exact parseVolume_inv vol _
              (fun e he => hclean vol (List.mem_cons_self vol rest) e he)
              (isbnInvB_limpiar isbn)
          · simp at h

theorem buscar_inv (catalog : String → Transport) (isbn titulo autor : String)
    (hcat : ∀ q, cleanTransport (catalog q) = true) (gb : Libro)
    (h : buscar_en_google_books catalog isbn titulo autor = .ok (some gb)) :
    isbnInvB gb.isbn = true := by
  unfold buscar_en_google_books at h
  by_cases h0 : isbn ≠ ""
  · rw [if_pos h0] at h
    dsimp only [] at h
    by_cases h1 : limpiar_isbn isbn ≠ ""
    · rw [if_pos h1] at h
      cases hc : catalog ("isbn:" ++ limpiar_isbn isbn) with
      | exn msg =>
        rw [hc] at h
        simp at h
      | resp status items =>
        rw [hc] at h
        dsimp only [] at h
        by_cases hs : status = 200
        · rw [if_pos hs] at h
          cases items with
          | nil => exact buscarTier2_inv catalog isbn titulo autor hcat gb h
          | cons vol rest =>
            dsimp only [] at h
            split at h
            · simp only [Except.ok.injEq, Option.some.injEq] at h
              subst h
              have hclean := hcat ("isbn:" ++ limpiar_isbn isbn)
              rw [hc] at hclean
              simp only [cleanTransport, List.all_eq_true] at hclean
              exact parseVolume_inv vol _
                (fun e he => hclean vol (List.mem_cons_self vol rest) e he)
                (isbnInvB_limpiar isbn)
            · exact buscarTier2_inv catalog isbn titulo autor hcat gb h
        · rw [if_neg hs] at h
          exact buscarTier2_inv catalog isbn titulo autor hcat gb h
    · rw [if_neg h1] at h
      exact buscarTier2_inv catalog isbn titulo autor hcat gb h
  · rw [if_neg h0] at h
    exact buscarTier2_inv catalog isbn titulo autor hcat gb h

/-- C3 counterexample: a catalog item whose 13-kind entry carries the
hyphenated value `"978-0-441-01359-3"` flows verbatim into the candidate
and into the final merged record's isbn, which therefore violates the
claimed 10/13 digits-and-`X` invariant (its length is 17). -/
theorem c3_counterexample :
    identificar_libro_por_imagen true (.ok (some (.obj { titulo := some "Dune" })))
      (fun _ => .resp 200 [{ industryIdentifiers :=
        [⟨some "ISBN_13", "978-0-441-01359-3"⟩], title := "Dune" }])
      = (some ⟨"978-0-441-01359-3", "Dune", "", 0, ""⟩, none) ∧
    isbnInvB "978-0-441-01359-3" = false :=
  ⟨rfl, rfl⟩

/-- C3 (amended): identifiers produced by the normalizer always satisfy
the 10/13 digits-and-`X` invariant, but identifier values scanned from a
catalog item are used verbatim; the invariant therefore holds for the
final record's isbn exactly under the extra assumption that every
identifier value the catalog supplies satisfies it itself. -/
theorem c3_identifier_invariant (key : Bool) (vision : VisionResp)
    (catalog : String → Transport) (hcat : ∀ q, cleanTransport (catalog q) = true)
    (rec : Libro) (err : Option String)
    (h : identificar_libro_por_imagen key vision catalog = (some rec, err)) :
    isbnInvB rec.isbn = true := by
  unfold identificar_libro_por_imagen at h
  by_cases hkey : key = false
  · rw [if_pos hkey] at h
    simp at h
  · rw [if_neg hkey] at h
    cases vision with
    | exn msg => simp at h
    | ok content =>
      dsimp only [] at h
      cases hcontent : content.getD (.obj {}) with
      | malformed msg =>
        rw [hcontent] at h
        simp at h
      | obj ia =>
        rw [hcontent] at h
        dsimp only [] at h
        cases hb : buscar_en_google_books catalog (limpiar_isbn (ia.isbn.getD ""))
            (pyStrip (ia.titulo.getD "")) (pyStrip (ia.autor.getD "")) with
        | error e =>
          rw [hb] at h
          simp at h
        | ok o =>
          rw [hb] at h
          cases o with
          | none =>
            dsimp only [] at h
            simp only [Prod.mk.injEq, Option.some.injEq] at h
            rcases h with ⟨h1, h2⟩
            rw [← h1]
            exact isbnInvB_limpiar _
          | some gb =>
            dsimp only [] at h
            simp only [Prod.mk.injEq, Option.some.injEq] at h
            rcases h with ⟨h1, h2⟩
            rw [← h1]
            show isbnInvB (pyOrS gb.isbn (limpiar_isbn (ia.isbn.getD ""))) = true
            unfold pyOrS
            split
            · exact isbnInvB_limpiar _
            · exact buscar_inv catalog _ _ _ hcat gb hb

/-- Witness for C3 (amended): a clean catalog answer keeps the final
record's isbn inside the invariant. -/
theorem c3_identifier_invariant_witness :
    identificar_libro_por_imagen true (.ok (some (.obj { titulo := some "Dune" })))
      duneCatConst = (some duneLibro, none) ∧ isbnInvB duneLibro.isbn = true :=
  ⟨rfl, c3_identifier_invariant true (.ok (some (.obj { titulo := some "Dune" })))
    duneCatConst (fun _ => rfl) duneLibro none rfl⟩

end SistemaBiblio
